import Mathlib

/-!
Verification of the local persistence and credential layer of the
`empire-desktop` Tauri shell (`src-tauri/src/lib.rs`).

Two components are embedded:

* the Secret Vault: the four `#[tauri::command]` functions `store_jwt`,
  `get_jwt`, `delete_jwt`, `has_jwt`, which wrap the platform keychain
  (the `keyring` crate) under the fixed service name `KEYCHAIN_SERVICE`;
* the Local Cache: the SQLite schema created by migration version 1 in
  `include_migrations` (tables, CHECK constraints, foreign-key actions,
  the `AFTER INSERT ON messages` trigger, and the `INSERT OR IGNORE`
  seeding of the `settings` table).

The platform keychain is external to the repository; it is modelled as a
finite map from `(service, user)` keys to secrets, with an explicit
`PlatformOutcome` parameter standing for the possibility that a platform
call itself fails for a reason other than "no such entry" (the
`keyring::Error::NoEntry` case is determined by the map's contents, as the
`match` arms in the source distinguish exactly those two situations).
The SQLite engine is likewise external: generic `INSERT` / `DELETE`
statements against the schema are embedded as state transformers whose
constraint checks, referential actions and trigger effects are read off
the migration SQL (foreign keys enforced per the `PRAGMA foreign_keys = ON`
line of the migration).
-/

set_option autoImplicit false

namespace Empire

/-- The fixed keychain service namespace, `const KEYCHAIN_SERVICE` in the
source. -/
def KEYCHAIN_SERVICE : String := "empire-desktop"

/-- The platform credential store: an association list from
`(service, user_id)` keys to stored secrets.  At most the first binding
for a key is visible, matching the one-secret-per-key platform contract. -/
def Keychain := List ((String × String) × String)

/-- Platform lookup: the secret currently stored under a key, if any.
An absent key is what the `keyring` crate reports as `Error::NoEntry`. -/
def kcGet : Keychain → String × String → Option String
  | [], _ => none
  | (k, v) :: rest, key => if k = key then some v else kcGet rest key

/-- Platform write: create or overwrite the secret under a key
(`Entry::set_password`). -/
def kcSet : Keychain → String × String → String → Keychain
  | [], key, s => [(key, s)]
  | (k, v) :: rest, key, s =>
      if k = key then (key, s) :: rest else (k, v) :: kcSet rest key s

/-- Platform removal: drop every binding of a key
(`Entry::delete_credential` on a present entry). -/
def kcDelete : Keychain → String × String → Keychain
  | [], _ => []
  | (k, v) :: rest, key =>
      if k = key then kcDelete rest key else (k, v) :: kcDelete rest key

/-- Whether a platform call itself succeeds or fails with a descriptive
message, for reasons other than "no such entry" (access denied, store
unavailable, handle-construction failure).  This is the nondeterminism of
the host credential store, threaded explicitly. -/
inductive PlatformOutcome where
  | ok
  | fail (msg : String)
deriving DecidableEq

/-- `store_jwt(user_id, jwt)`: result, keychain after the call, and the
log lines emitted (`log::info!`).  `pe` is the outcome of
`Entry::new`, `po` the outcome of `set_password`. -/
def store_jwt (kc : Keychain) (user_id jwt : String)
    (pe po : PlatformOutcome) :
    Except String Unit × Keychain × List String :=
  match pe with
  | .fail e => (.error ("Failed to create keychain entry: " ++ e), kc, [])
  | .ok =>
    match po with
    | .fail e => (.error ("Failed to store JWT in keychain: " ++ e), kc, [])
    | .ok =>
        (.ok (), kcSet kc (KEYCHAIN_SERVICE, user_id) jwt,
          ["JWT stored in keychain for user: " ++ user_id])

/-- `get_jwt(user_id)`: result and log lines.  The keychain is read, not
modified.  `Ok(None)` is the `keyring::Error::NoEntry` arm of the source
`match`; `po = fail` is its final `Err(e)` arm. -/
def get_jwt (kc : Keychain) (user_id : String)
    (pe po : PlatformOutcome) :
    Except String (Option String) × List String :=
  match pe with
  | .fail e => (.error ("Failed to create keychain entry: " ++ e), [])
  | .ok =>
    match po with
    | .fail e => (.error ("Failed to retrieve JWT from keychain: " ++ e), [])
    | .ok =>
      match kcGet kc (KEYCHAIN_SERVICE, user_id) with
      | some jwt =>
          (.ok (some jwt), ["JWT retrieved from keychain for user: " ++ user_id])
      | none =>
          (.ok none, ["No JWT found in keychain for user: " ++ user_id])

/-- `delete_jwt(user_id)`: result, keychain after the call, and log lines.
The `keyring::Error::NoEntry` arm of the source returns `Ok(())` and
leaves the store untouched. -/
def delete_jwt (kc : Keychain) (user_id : String)
    (pe po : PlatformOutcome) :
    Except String Unit × Keychain × List String :=
  match pe with
  | .fail e => (.error ("Failed to create keychain entry: " ++ e), kc, [])
  | .ok =>
    match po with
    | .fail e => (.error ("Failed to delete JWT from keychain: " ++ e), kc, [])
    | .ok =>
      match kcGet kc (KEYCHAIN_SERVICE, user_id) with
      | some _ =>
          (.ok (), kcDelete kc (KEYCHAIN_SERVICE, user_id),
            ["JWT deleted from keychain for user: " ++ user_id])
      | none =>
          (.ok (), kc, ["No JWT to delete for user: " ++ user_id])

/-- `has_jwt(user_id)`: result and log lines.  The source emits no
`log::info!` on any arm of this command. -/
def has_jwt (kc : Keychain) (user_id : String)
    (pe po : PlatformOutcome) :
    Except String Bool × List String :=
  match pe with
  | .fail e => (.error ("Failed to create keychain entry: " ++ e), [])
  | .ok =>
    match po with
    | .fail e => (.error ("Failed to check JWT in keychain: " ++ e), [])
    | .ok =>
      match kcGet kc (KEYCHAIN_SERVICE, user_id) with
      | some _ => (.ok true, [])
      | none => (.ok false, [])

/-! ## Local Cache: the schema of migration version 1

Row types follow the `CREATE TABLE` statements of the migration.
`TEXT` timestamp columns (`datetime('now')` values) are abstracted to
`Nat` instants; nullable columns are `Option`-typed. -/

/-- A row of the `projects` table. -/
structure ProjectRow where
  id : String
  name : String
  description : Option String
  department : Option String
  instructions : Option String
  memory_context : Option String
  created_at : Nat
  updated_at : Nat
  synced_at : Option Nat
deriving DecidableEq

/-- A row of the `conversations` table.  `message_count` and
`last_message_at` are the derived columns maintained by the
`messages_insert_update_conversation` trigger. -/
structure ConversationRow where
  id : String
  project_id : Option String
  title : String
  created_at : Nat
  updated_at : Nat
  message_count : Int
  last_message_at : Option Nat
  synced_at : Option Nat
deriving DecidableEq

/-- A row of the `messages` table. -/
structure MessageRow where
  id : String
  conversation_id : String
  role : String
  content : String
  sources : Option String
  created_at : Nat
  updated_at : Nat
  status : String
  synced_at : Option Nat
deriving DecidableEq

/-- A row of the `project_files` table. -/
structure ProjectFileRow where
  id : String
  project_id : String
  filename : String
  file_path : String
  file_size : Option Int
  mime_type : Option String
  created_at : Nat
  updated_at : Nat
  synced_at : Option Nat
deriving DecidableEq

/-- The relational state of the cache (the four tables the claims touch;
`users` and `settings` are independent of them). -/
structure DB where
  projects : List ProjectRow
  conversations : List ConversationRow
  messages : List MessageRow
  project_files : List ProjectFileRow
deriving DecidableEq

/-- A generic `INSERT INTO messages (id, conversation_id, role, content,
sources, status) VALUES (...)` executed against the schema at instant
`now` (so `created_at` and `updated_at` take their `datetime('now')`
defaults).  The engine checks, per the migration SQL: the `messages.id`
primary key, the two `CHECK` constraints on `role` and `status`, and the
foreign key `conversation_id REFERENCES conversations(id)` (enforced via
`PRAGMA foreign_keys = ON`).  On success the row is appended and the
`messages_insert_update_conversation` trigger fires within the same
statement, updating `message_count`, `last_message_at` and `updated_at`
of the parent conversation.  A constraint violation rejects the whole
statement. -/
def insert_message (db : DB) (now : Nat)
    (id conversation_id role content : String)
    (sources : Option String) (status : String) : Except String DB :=
  if ∃ m ∈ db.messages, m.id = id then
    .error "UNIQUE constraint failed: messages.id"
  else if ¬ (role = "user" ∨ role = "assistant") then
    .error "CHECK constraint failed: role"
  else if ¬ (status = "sending" ∨ status = "streaming" ∨
             status = "complete" ∨ status = "error") then
    .error "CHECK constraint failed: status"
  else if ¬ ∃ c ∈ db.conversations, c.id = conversation_id then
    .error "FOREIGN KEY constraint failed"
  else
    .ok { db with
      messages := db.messages ++
        [⟨id, conversation_id, role, content, sources, now, now, status, none⟩],
      conversations := db.conversations.map fun c =>
        if c.id = conversation_id then
          { c with message_count := c.message_count + 1,
                   last_message_at := some now,
                   updated_at := now }
        else c }

/-- Run an `INSERT INTO messages` the way the engine does: a rejected
statement leaves the database unchanged (no partial application). -/
def insert_message_exec (db : DB) (now : Nat)
    (id conversation_id role content : String)
    (sources : Option String) (status : String) : DB :=
  match insert_message db now id conversation_id role content sources status with
  | .ok db' => db'
  | .error _ => db

/-- A generic `DELETE FROM messages WHERE id = ?`.  The schema declares
no trigger on message deletion, so only the `messages` table changes. -/
def delete_message (db : DB) (id : String) : DB :=
  { db with messages := db.messages.filter fun m => m.id ≠ id }

/-- A generic `DELETE FROM conversations WHERE id = ?`.  The
`ON DELETE CASCADE` action of `messages.conversation_id` removes the
messages of the deleted conversation in the same statement. -/
def delete_conversation (db : DB) (id : String) : DB :=
  { db with
    conversations := db.conversations.filter fun c => c.id ≠ id,
    messages := db.messages.filter fun m => m.conversation_id ≠ id }

/-- A generic `DELETE FROM projects WHERE id = ?`.  The
`ON DELETE SET NULL` action of `conversations.project_id` clears the
foreign key on referencing conversations, and the `ON DELETE CASCADE`
action of `project_files.project_id` removes referencing files.  With
SQLite's default `recursive_triggers = OFF`, foreign-key actions fire no
`AFTER UPDATE` triggers, so `updated_at` of the nulled conversations is
untouched. -/
def delete_project (db : DB) (id : String) : DB :=
  { db with
    projects := db.projects.filter fun p => p.id ≠ id,
    conversations := db.conversations.map fun c =>
      if c.project_id = some id then { c with project_id := none } else c,
    project_files := db.project_files.filter fun f => f.project_id ≠ id }

/-- The derived-count invariant: every conversation row's
`message_count` equals the number of message rows referencing it. -/
def countInv (db : DB) : Prop :=
  ∀ c ∈ db.conversations,
    c.message_count =
      ((db.messages.filter fun m => m.conversation_id = c.id).length : Int)

/-! ## The migration runner of `include_migrations`

The single migration (version 1) is a script of guarded DDL statements
(`CREATE TABLE IF NOT EXISTS`, `CREATE INDEX IF NOT EXISTS`,
`CREATE TRIGGER IF NOT EXISTS`) followed by an `INSERT OR IGNORE` seeding
of `settings`.  `tauri_plugin_sql` applies a migration only when its
version exceeds the persisted schema-version marker.  The schema catalog
is embedded as the sets of object names plus the `settings` rows. -/

/-- The persisted schema catalog: object names per kind, the `settings`
rows in insertion order, and the stored schema-version marker. -/
structure SchemaState where
  tables : Finset String
  indexes : Finset String
  triggers : Finset String
  settings : List (String × String)
  version : Nat
deriving DecidableEq

/-- `CREATE TABLE IF NOT EXISTS n (...)`. -/
def createTableIfNotExists (n : String) (s : SchemaState) : SchemaState :=
  if n ∈ s.tables then s else { s with tables := insert n s.tables }

/-- `CREATE INDEX IF NOT EXISTS n ON ...`. -/
def createIndexIfNotExists (n : String) (s : SchemaState) : SchemaState :=
  if n ∈ s.indexes then s else { s with indexes := insert n s.indexes }

/-- `CREATE TRIGGER IF NOT EXISTS n ...`. -/
def createTriggerIfNotExists (n : String) (s : SchemaState) : SchemaState :=
  if n ∈ s.triggers then s else { s with triggers := insert n s.triggers }

/-- `INSERT OR IGNORE INTO settings (key, value) VALUES (k, v)`: the row
is appended unless a row with primary key `k` already exists, in which
case the statement is ignored. -/
def insertOrIgnoreSetting (k v : String) (s : SchemaState) : SchemaState :=
  if k ∈ s.settings.map Prod.fst then s
  else { s with settings := s.settings ++ [(k, v)] }

/-- The DDL prefix of migration version 1, statement by statement in
source order: the six tables, five indexes and seven triggers of the SQL
script. -/
def applyMigrationV1_ddl (s : SchemaState) : SchemaState :=
  createTriggerIfNotExists "messages_insert_update_conversation" <|
  createTriggerIfNotExists "settings_updated_at" <|
  createTriggerIfNotExists "project_files_updated_at" <|
  createTriggerIfNotExists "messages_updated_at" <|
  createTriggerIfNotExists "conversations_updated_at" <|
  createTriggerIfNotExists "projects_updated_at" <|
  createTriggerIfNotExists "users_updated_at" <|
  createIndexIfNotExists "idx_project_files_project" <|
  createIndexIfNotExists "idx_conversations_updated" <|
  createIndexIfNotExists "idx_conversations_project" <|
  createIndexIfNotExists "idx_messages_created" <|
  createIndexIfNotExists "idx_messages_conversation" <|
  createTableIfNotExists "settings" <|
  createTableIfNotExists "project_files" <|
  createTableIfNotExists "messages" <|
  createTableIfNotExists "conversations" <|
  createTableIfNotExists "projects" <|
  createTableIfNotExists "users" s

/-- The body of migration version 1: the DDL prefix followed by the
`INSERT OR IGNORE` seeding of the four default `settings` rows, in
source order. -/
def applyMigrationV1 (s : SchemaState) : SchemaState :=
  insertOrIgnoreSetting "apiEndpoint" "\"https://jb-empire-api.onrender.com\"" <|
  insertOrIgnoreSetting "keyboardShortcutsEnabled" "true" <|
  insertOrIgnoreSetting "fontSize" "\"medium\"" <|
  insertOrIgnoreSetting "theme" "\"dark\"" <|
  applyMigrationV1_ddl s

/-- The plugin's migration runner: apply each migration whose version
exceeds the persisted marker, in ascending order, then advance the
marker.  With the single version-1 migration of the source this is one
guarded application. -/
def runMigrations (s : SchemaState) : SchemaState :=
  if 1 ≤ s.version then s else { applyMigrationV1 s with version := 1 }

theorem kcGet_kcSet_self (kc : Keychain) (key : String × String) (s : String) :
    kcGet (kcSet kc key s) key = some s := by
  induction kc with
  | nil => simp [kcSet, kcGet]
  | cons hd tl ih =>
      obtain ⟨k, v⟩ := hd
      by_cases h : k = key
      · simp [kcSet, h, kcGet]
      · simp [kcSet, h, kcGet, ih]

/-- C3: for non-empty identity `i` and secret `s`, if `store_jwt(i, s)`
succeeds then an immediately following `get_jwt(i)` (against a healthy
platform) returns `Ok(Some(s))`. -/
theorem store_then_retrieve_roundtrip (kc : Keychain) (i s : String)
    (pe po : PlatformOutcome) (_hi : i ≠ "") (_hs : s ≠ "")
    (hok : (store_jwt kc i s pe po).1 = .ok ()) :
    (get_jwt (store_jwt kc i s pe po).2.1 i .ok .ok).1 = .ok (some s) := by
  cases pe with
  | fail e => simp [store_jwt] at hok
  | ok =>
    cases po with
    | fail e => simp [store_jwt] at hok
    | ok => simp [store_jwt, get_jwt, kcGet_kcSet_self]

theorem store_then_retrieve_roundtrip_witness :
    (get_jwt (store_jwt [] "u" "t" .ok .ok).2.1 "u" .ok .ok).1 = .ok (some "t") :=
  store_then_retrieve_roundtrip [] "u" "t" .ok .ok (by decide) (by decide) rfl

/-- C4: `delete_jwt(i)` on an identity with no stored secret returns
`Ok(())` (the `keyring::Error::NoEntry` arm) and leaves the keychain
unchanged: deletion of an absent secret is an idempotent no-op. -/
theorem delete_jwt_absent_is_noop_success (kc : Keychain) (i : String)
    (h : kcGet kc (KEYCHAIN_SERVICE, i) = none) :
    (delete_jwt kc i .ok .ok).1 = .ok () ∧ (delete_jwt kc i .ok .ok).2.1 = kc := by
  simp [delete_jwt, h]

theorem delete_jwt_absent_is_noop_success_witness :
    (delete_jwt [] "u" .ok .ok).1 = .ok () ∧ (delete_jwt [] "u" .ok .ok).2.1 = [] :=
  delete_jwt_absent_is_noop_success [] "u" rfl

/-- C5: for an identity with no stored secret, `get_jwt` returns
`Ok(None)` (`absent`, a normal value) and `has_jwt` returns `Ok(false)`;
a platform error other than "no such entry" is surfaced as `Err` by
both operations. -/
theorem retrieve_absent_and_exists_false (kc : Keychain) (i : String)
    (h : kcGet kc (KEYCHAIN_SERVICE, i) = none) :
    (get_jwt kc i .ok .ok).1 = .ok none ∧
    (has_jwt kc i .ok .ok).1 = .ok false ∧
    (∀ m : String, ∃ e, (get_jwt kc i .ok (.fail m)).1 = .error e) ∧
    (∀ m : String, ∃ e, (has_jwt kc i .ok (.fail m)).1 = .error e) := by
  refine ⟨by simp [get_jwt, h], by simp [has_jwt, h], ?_, ?_⟩
  · intro m; exact ⟨_, rfl⟩
  · intro m; exact ⟨_, rfl⟩

theorem retrieve_absent_and_exists_false_witness :
    (get_jwt [] "u" .ok .ok).1 = .ok none ∧ (has_jwt [] "u" .ok .ok).1 = .ok false :=
  ⟨(retrieve_absent_and_exists_false [] "u" rfl).1,
   (retrieve_absent_and_exists_false [] "u" rfl).2.1⟩

/-- A keychain holding one token, used to exhibit a successful `has_jwt`
call that emits no log line. -/
def kcOne : Keychain := [((KEYCHAIN_SERVICE, "u"), "tok")]

/-- C9 counterexample: `has_jwt` (the `exists` operation) succeeds while
producing no observable trace at all — the source has no `log::info!` in
`has_jwt` — refuting "every successful Vault operation (store, retrieve,
delete, exists) produces an observable audit trace". -/
theorem has_jwt_success_without_trace :
    (has_jwt kcOne "u" .ok .ok).1 = .ok true ∧ (has_jwt kcOne "u" .ok .ok).2 = [] := by
  constructor <;> rfl

/-- C9 (amended): `store_jwt`, `get_jwt` and `delete_jwt` emit a log line
on success, `has_jwt` never emits one, and no observable trace or error
outcome of any of the four Vault operations depends on the secret's
content: each operation's trace is identical for any two secrets, the
results of `store_jwt` and `delete_jwt` are independent of the submitted
secret and of the keychain's contents altogether, and an error outcome
of `get_jwt` or `has_jwt` is independent of the keychain's contents
(hence of any stored secret). -/
theorem vault_traces_audit_and_never_leak (kc kd : Keychain) (i s s' : String)
    (pe po : PlatformOutcome) :
    (store_jwt kc i s pe po).2.2 = (store_jwt kc i s' pe po).2.2 ∧
    ((store_jwt kc i s pe po).1 = .ok () → (store_jwt kc i s pe po).2.2 ≠ []) ∧
    (get_jwt (kcSet kc (KEYCHAIN_SERVICE, i) s) i pe po).2 =
      (get_jwt (kcSet kc (KEYCHAIN_SERVICE, i) s') i pe po).2 ∧
    (∀ v, (get_jwt kc i pe po).1 = .ok v → (get_jwt kc i pe po).2 ≠ []) ∧
    (delete_jwt (kcSet kc (KEYCHAIN_SERVICE, i) s) i pe po).2.2 =
      (delete_jwt (kcSet kc (KEYCHAIN_SERVICE, i) s') i pe po).2.2 ∧
    ((delete_jwt kc i pe po).1 = .ok () → (delete_jwt kc i pe po).2.2 ≠ []) ∧
    (has_jwt kc i pe po).2 = [] ∧
    (store_jwt kc i s pe po).1 = (store_jwt kd i s' pe po).1 ∧
    (∀ e, (get_jwt kc i pe po).1 = .error e →
      (get_jwt kd i pe po).1 = .error e) ∧
    (delete_jwt kc i pe po).1 = (delete_jwt kd i pe po).1 ∧
    (∀ e, (has_jwt kc i pe po).1 = .error e →
      (has_jwt kd i pe po).1 = .error e) := by
  cases pe with
  | fail e => simp [store_jwt, get_jwt, delete_jwt, has_jwt]
  | ok =>
    cases po with
    | fail e => simp [store_jwt, get_jwt, delete_jwt, has_jwt]
    | ok =>
      have hst : (store_jwt kc i s .ok .ok).2.2 = (store_jwt kc i s' .ok .ok).2.2 := by
        simp [store_jwt]
      have hne : (store_jwt kc i s .ok .ok).1 = .ok () →
          (store_jwt kc i s .ok .ok).2.2 ≠ [] := by
        simp [store_jwt]
      refine ⟨hst, hne, ?_, ?_, ?_, ?_, ?_, ?_, ?_, ?_, ?_⟩
      · simp [get_jwt, kcGet_kcSet_self]
      · intro v hv
        cases hg : kcGet kc (KEYCHAIN_SERVICE, i) <;> simp [get_jwt, hg]
      · simp [delete_jwt, kcGet_kcSet_self]
      · intro hd
        cases hg : kcGet kc (KEYCHAIN_SERVICE, i) <;> simp [delete_jwt, hg]
      · cases hg : kcGet kc (KEYCHAIN_SERVICE, i) <;> simp [has_jwt, hg]
      · simp [store_jwt]
      · intro e he
        cases hg : kcGet kc (KEYCHAIN_SERVICE, i) <;> simp [get_jwt, hg] at he
      · cases hg : kcGet kc (KEYCHAIN_SERVICE, i) <;>
          cases hg' : kcGet kd (KEYCHAIN_SERVICE, i) <;>
          simp [delete_jwt, hg, hg']
      · intro e he
        cases hg : kcGet kc (KEYCHAIN_SERVICE, i) <;> simp [has_jwt, hg] at he

theorem vault_traces_audit_and_never_leak_witness :
    (store_jwt [] "u" "a" .ok .ok).2.2 = (store_jwt [] "u" "b" .ok .ok).2.2 ∧
    (store_jwt [] "u" "a" .ok .ok).2.2 ≠ [] ∧
    (has_jwt [] "u" .ok .ok).2 = [] ∧
    (store_jwt [] "u" "a" .ok .ok).1 =
      (store_jwt [((KEYCHAIN_SERVICE, "u"), "zz")] "u" "b" .ok .ok).1 ∧
    (delete_jwt [] "u" .ok .ok).1 =
      (delete_jwt [((KEYCHAIN_SERVICE, "u"), "zz")] "u" .ok .ok).1 := by
  have h := vault_traces_audit_and_never_leak []
    [((KEYCHAIN_SERVICE, "u"), "zz")] "u" "a" "b" .ok .ok
  refine ⟨h.1, h.2.1 rfl, h.2.2.2.2.2.2.1, ?_, ?_⟩
  · exact h.2.2.2.2.2.2.2.1
  · exact h.2.2.2.2.2.2.2.2.2.1

/-- A conversation row with no messages yet, as created by a plain
`INSERT INTO conversations` (defaults: `message_count = 0`,
`last_message_at` NULL). -/
def conv0 : ConversationRow := ⟨"c", none, "t", 0, 0, 0, none, none⟩

/-- A database holding the single conversation `conv0`. -/
def db0 : DB := ⟨[], [conv0], [], []⟩

/-- C2: inserting a message whose `conversation_id` references no
existing conversation is rejected with a constraint failure, and the
database state is unchanged — no message row is created and no
conversation aggregate is updated. -/
theorem insert_message_orphan_rejected (db : DB) (now : Nat)
    (id cid role content : String) (sources : Option String) (status : String)
    (h : ¬ ∃ c ∈ db.conversations, c.id = cid) :
    (∃ e, insert_message db now id cid role content sources status = .error e) ∧
    insert_message_exec db now id cid role content sources status = db := by
  unfold insert_message_exec insert_message
  split_ifs with h1 h2 h3
  · exact ⟨⟨_, rfl⟩, rfl⟩
  · exact ⟨⟨_, rfl⟩, rfl⟩
  · exact ⟨⟨_, rfl⟩, rfl⟩
  · exact ⟨⟨_, rfl⟩, rfl⟩

theorem insert_message_orphan_rejected_witness :
    (∃ e, insert_message db0 0 "m" "zzz" "user" "x" none "complete" = .error e) ∧
    insert_message_exec db0 0 "m" "zzz" "user" "x" none "complete" = db0 :=
  insert_message_orphan_rejected db0 0 "m" "zzz" "user" "x" none "complete" (by decide)

/-- C7: deleting conversation `cid` removes exactly the messages whose
`conversation_id = cid` (the CASCADE action) and keeps every message of
any other conversation. -/
theorem delete_conversation_cascades_exactly (db : DB) (cid : String) :
    (∀ m ∈ db.messages, m.conversation_id = cid →
        m ∉ (delete_conversation db cid).messages) ∧
    (∀ m ∈ db.messages, m.conversation_id ≠ cid →
        m ∈ (delete_conversation db cid).messages) ∧
    (∀ m ∈ (delete_conversation db cid).messages,
        m ∈ db.messages ∧ m.conversation_id ≠ cid) := by
  refine ⟨?_, ?_, ?_⟩
  · intro m hm hcid hmem
    rw [delete_conversation] at hmem
    simp only [List.mem_filter, decide_eq_true_eq] at hmem
    exact hmem.2 hcid
  · intro m hm hcid
    rw [delete_conversation]
    simp only [List.mem_filter, decide_eq_true_eq]
    exact ⟨hm, hcid⟩
  · intro m hmem
    rw [delete_conversation] at hmem
    simp only [List.mem_filter, decide_eq_true_eq] at hmem
    exact hmem

/-- A message in conversation `"c"` and one in conversation `"d"`, to
instantiate the cascade claim concretely. -/
def msgC : MessageRow := ⟨"mc", "c", "user", "hi", none, 1, 1, "complete", none⟩

/-- See `msgC`. -/
def msgD : MessageRow := ⟨"md", "d", "user", "yo", none, 2, 2, "complete", none⟩

/-- Two conversations with one message each. -/
def db7 : DB :=
  ⟨[], [conv0, ⟨"d", none, "t2", 0, 0, 1, some 2, none⟩], [msgC, msgD], []⟩

theorem delete_conversation_cascades_exactly_witness :
    msgC ∉ (delete_conversation db7 "c").messages ∧
    msgD ∈ (delete_conversation db7 "c").messages := by
  have h := delete_conversation_cascades_exactly db7 "c"
  exact ⟨h.1 msgC (by decide) (by decide), h.2.1 msgD (by decide) (by decide)⟩

/-- C6: deleting project `pid` keeps every conversation row (clearing
`project_id` on those that referenced `pid`, leaving the others intact)
and deletes exactly the project files that referenced `pid`. -/
theorem delete_project_nullifies_and_cascades (db : DB) (pid : String) :
    (delete_project db pid).conversations.length = db.conversations.length ∧
    (∀ c ∈ db.conversations, ∃ c' ∈ (delete_project db pid).conversations,
        c'.id = c.id ∧ c'.project_id ≠ some pid ∧
        (c.project_id = some pid →
          c'.project_id = none ∧ c'.title = c.title ∧
          c'.created_at = c.created_at ∧ c'.updated_at = c.updated_at ∧
          c'.message_count = c.message_count ∧
          c'.last_message_at = c.last_message_at ∧ c'.synced_at = c.synced_at) ∧
        (c.project_id ≠ some pid → c' = c)) ∧
    (∀ f ∈ (delete_project db pid).project_files, f.project_id ≠ pid) ∧
    (∀ f ∈ db.project_files, f.project_id ≠ pid →
        f ∈ (delete_project db pid).project_files) := by
  refine ⟨?_, ?_, ?_, ?_⟩
  · simp [delete_project]
  · intro c hc
    by_cases hp : c.project_id = some pid
    · refine ⟨{ c with project_id := none }, ?_, rfl, by simp, ?_, ?_⟩
      · rw [delete_project]
        exact List.mem_map.mpr ⟨c, hc, by simp [hp]⟩
      · intro _
        and_intros <;> rfl
      · intro hcon; exact absurd hp hcon
    · refine ⟨c, ?_, rfl, hp, fun hcon => absurd hcon hp, fun _ => rfl⟩
      rw [delete_project]
      exact List.mem_map.mpr ⟨c, hc, by simp [hp]⟩
  · intro f hf
    rw [delete_project] at hf
    simp only [List.mem_filter, decide_eq_true_eq] at hf
    exact hf.2
  · intro f hf hpid
    rw [delete_project]
    simp only [List.mem_filter, decide_eq_true_eq]
    exact ⟨hf, hpid⟩

/-- A project with one linked conversation and one file, to instantiate
the project-deletion claim concretely. -/
def db6 : DB :=
  ⟨[⟨"p", "n", none, none, none, none, 0, 0, none⟩],
   [⟨"d", some "p", "t2", 0, 0, 0, none, none⟩],
   [],
   [⟨"f1", "p", "a.txt", "/a.txt", none, none, 0, 0, none⟩]⟩

theorem delete_project_nullifies_and_cascades_witness :
    (delete_project db6 "p").conversations.length = db6.conversations.length ∧
    ∀ f ∈ (delete_project db6 "p").project_files, f.project_id ≠ "p" := by
  have h := delete_project_nullifies_and_cascades db6 "p"
  exact ⟨h.1, h.2.2.1⟩

/-- Characterization of a successful `INSERT INTO messages`: the new row
is appended and the insert trigger rewrites exactly the parent
conversation's derived columns. -/
theorem insert_message_ok_elim {db db' : DB} {now : Nat}
    {id cid role content : String} {sources : Option String} {status : String}
    (h : insert_message db now id cid role content sources status = .ok db') :
    db'.messages =
      db.messages ++ [⟨id, cid, role, content, sources, now, now, status, none⟩] ∧
    db'.conversations = db.conversations.map (fun c =>
      if c.id = cid then
        { c with message_count := c.message_count + 1,
                 last_message_at := some now, updated_at := now }
      else c) ∧
    db'.projects = db.projects ∧ db'.project_files = db.project_files := by
  unfold insert_message at h
  split_ifs at h
  injection h with h
  subst h
  exact ⟨rfl, rfl, rfl, rfl⟩

/-- C1 (amended): on an `INSERT INTO messages`, the trigger keeps the
derived-count invariant (every conversation's `message_count` equals the
number of messages referencing it) and stamps the parent conversation's
`last_message_at` with the inserted message's creation instant.  The
invariant is preserved by inserts only: message deletion fires no
trigger (see the counterexample). -/
theorem insert_message_maintains_aggregates (db db' : DB) (now : Nat)
    (id cid role content : String) (sources : Option String) (status : String)
    (hinv : countInv db)
    (h : insert_message db now id cid role content sources status = .ok db') :
    countInv db' ∧
    ∀ c' ∈ db'.conversations, c'.id = cid → c'.last_message_at = some now := by
  obtain ⟨hm, hc, -, -⟩ := insert_message_ok_elim h
  constructor
  · intro c' hc'
    rw [hc] at hc'
    obtain ⟨c, hcmem, rfl⟩ := List.mem_map.mp hc'
    have hcount := hinv c hcmem
    by_cases hid : c.id = cid
    · simp only [if_pos hid, hm, List.filter_append]
      simp [hid, hcount]
    · simp only [if_neg hid, hm, List.filter_append]
      have : cid ≠ c.id := fun hcon => hid hcon.symm
      simp [this, hcount]
  · intro c' hc' hid
    rw [hc] at hc'
    obtain ⟨c, hcmem, rfl⟩ := List.mem_map.mp hc'
    by_cases hcid : c.id = cid
    · simp [hcid]
    · simp only [if_neg hcid] at hid ⊢
      exact absurd hid hcid

/-- The database after inserting one message into `db0`'s conversation
`"c"` at instant 1. -/
def db1 : DB := insert_message_exec db0 1 "m1" "c" "user" "hi" none "complete"

/-- `db1` after `DELETE FROM messages WHERE id = 'm1'`. -/
def db2 : DB := delete_message db1 "m1"

theorem insert_message_maintains_aggregates_witness :
    countInv db1 ∧ ∀ c' ∈ db1.conversations, c'.id = "c" →
      c'.last_message_at = some 1 :=
  insert_message_maintains_aggregates db0 db1 1 "m1" "c" "user" "hi" none
    "complete" (by unfold countInv; decide) rfl

/-- C1 counterexample: insert one message into conversation `"c"`, then
delete it.  No delete trigger exists, so `message_count` stays at 1
while zero message rows reference `"c"` — refuting the claim for
sequences that contain deletes. -/
theorem message_count_stale_after_delete :
    insert_message db0 1 "m1" "c" "user" "hi" none "complete" = .ok db1 ∧
    db2.conversations.map ConversationRow.message_count = [1] ∧
    (db2.messages.filter fun m => m.conversation_id = "c").length = 0 := by
  refine ⟨rfl, by decide, by decide⟩

/-- C10: an `INSERT INTO messages` rewrites exactly three columns of the
parent conversation row — `message_count`, `last_message_at` and
`updated_at` — leaving `id`, `project_id`, `title`, `created_at` and
`synced_at` intact, and leaves every other conversation row entirely
unchanged. -/
theorem insert_message_conversation_frame (db db' : DB) (now : Nat)
    (id cid role content : String) (sources : Option String) (status : String)
    (h : insert_message db now id cid role content sources status = .ok db') :
    ∀ c ∈ db.conversations, ∃ c' ∈ db'.conversations,
      c'.id = c.id ∧ c'.project_id = c.project_id ∧ c'.title = c.title ∧
      c'.created_at = c.created_at ∧ c'.synced_at = c.synced_at ∧
      (c.id = cid →
        c'.updated_at = now ∧ c'.message_count = c.message_count + 1 ∧
        c'.last_message_at = some now) ∧
      (c.id ≠ cid → c' = c) := by
  obtain ⟨-, hc, -, -⟩ := insert_message_ok_elim h
  intro c hcmem
  by_cases hid : c.id = cid
  · refine ⟨⟨c.id, c.project_id, c.title, c.created_at, now,
        c.message_count + 1, some now, c.synced_at⟩, ?_, ?_⟩
    · rw [hc]
      exact List.mem_map.mpr ⟨c, hcmem, by simp [hid]⟩
    · exact ⟨rfl, rfl, Eq.refl _, rfl, Eq.refl _,
        fun _ => ⟨rfl, Eq.refl _, rfl⟩, fun hcon => absurd hid hcon⟩
  · refine ⟨c, ?_, rfl, Eq.refl _, rfl, Eq.refl _, rfl,
      fun hcon => absurd hcon hid, fun _ => rfl⟩
    rw [hc]
    exact List.mem_map.mpr ⟨c, hcmem, by simp [hid]⟩

/-- The database after inserting a second message into `"c"`. -/
def db10 : DB := insert_message_exec db1 2 "m2" "c" "assistant" "ok" none "complete"

/-- The conversation row of `db1`: `conv0` after the first insert's
trigger update. -/
def conv1c : ConversationRow := ⟨"c", none, "t", 0, 1, 1, some 1, none⟩

theorem insert_message_conversation_frame_witness :
    ∃ c' ∈ db10.conversations,
      c'.id = conv1c.id ∧ c'.updated_at = 2 ∧
      c'.message_count = conv1c.message_count + 1 ∧
      c'.last_message_at = some 2 := by
  obtain ⟨c', hmem, hid, -, -, -, -, himp, -⟩ :=
    insert_message_conversation_frame db1 db10 2 "m2" "c" "assistant" "ok" none
      "complete" rfl conv1c (by decide)
  obtain ⟨hu, hmc, hlm⟩ := himp (by decide)
  exact ⟨c', hmem, hid, hu, hmc, hlm⟩

/-! ### Statement-level facts about the migration script -/

@[simp]
theorem createTableIfNotExists_tables (n : String) (s : SchemaState) :
    (createTableIfNotExists n s).tables = insert n s.tables := by
  unfold createTableIfNotExists
  split
  · exact (Finset.insert_eq_self.mpr ‹_›).symm
  · rfl

@[simp]
theorem createTableIfNotExists_indexes (n : String) (s : SchemaState) :
    (createTableIfNotExists n s).indexes = s.indexes := by
  unfold createTableIfNotExists; split <;> rfl

@[simp]
theorem createTableIfNotExists_triggers (n : String) (s : SchemaState) :
    (createTableIfNotExists n s).triggers = s.triggers := by
  unfold createTableIfNotExists; split <;> rfl

@[simp]
theorem createTableIfNotExists_settings (n : String) (s : SchemaState) :
    (createTableIfNotExists n s).settings = s.settings := by
  unfold createTableIfNotExists; split <;> rfl

@[simp]
theorem createIndexIfNotExists_indexes (n : String) (s : SchemaState) :
    (createIndexIfNotExists n s).indexes = insert n s.indexes := by
  unfold createIndexIfNotExists
  split
  · exact (Finset.insert_eq_self.mpr ‹_›).symm
  · rfl

@[simp]
theorem createIndexIfNotExists_tables (n : String) (s : SchemaState) :
    (createIndexIfNotExists n s).tables = s.tables := by
  unfold createIndexIfNotExists; split <;> rfl

@[simp]
theorem createIndexIfNotExists_triggers (n : String) (s : SchemaState) :
    (createIndexIfNotExists n s).triggers = s.triggers := by
  unfold createIndexIfNotExists; split <;> rfl

@[simp]
theorem createIndexIfNotExists_settings (n : String) (s : SchemaState) :
    (createIndexIfNotExists n s).settings = s.settings := by
  unfold createIndexIfNotExists; split <;> rfl

@[simp]
theorem createTriggerIfNotExists_triggers (n : String) (s : SchemaState) :
    (createTriggerIfNotExists n s).triggers = insert n s.triggers := by
  unfold createTriggerIfNotExists
  split
  · exact (Finset.insert_eq_self.mpr ‹_›).symm
  · rfl

@[simp]
theorem createTriggerIfNotExists_tables (n : String) (s : SchemaState) :
    (createTriggerIfNotExists n s).tables = s.tables := by
  unfold createTriggerIfNotExists; split <;> rfl

@[simp]
theorem createTriggerIfNotExists_indexes (n : String) (s : SchemaState) :
    (createTriggerIfNotExists n s).indexes = s.indexes := by
  unfold createTriggerIfNotExists; split <;> rfl

@[simp]
theorem createTriggerIfNotExists_settings (n : String) (s : SchemaState) :
    (createTriggerIfNotExists n s).settings = s.settings := by
  unfold createTriggerIfNotExists; split <;> rfl

@[simp]
theorem insertOrIgnoreSetting_tables (k v : String) (s : SchemaState) :
    (insertOrIgnoreSetting k v s).tables = s.tables := by
  unfold insertOrIgnoreSetting; split <;> rfl

@[simp]
theorem insertOrIgnoreSetting_indexes (k v : String) (s : SchemaState) :
    (insertOrIgnoreSetting k v s).indexes = s.indexes := by
  unfold insertOrIgnoreSetting; split <;> rfl

@[simp]
theorem insertOrIgnoreSetting_triggers (k v : String) (s : SchemaState) :
    (insertOrIgnoreSetting k v s).triggers = s.triggers := by
  unfold insertOrIgnoreSetting; split <;> rfl

@[simp]
theorem insertOrIgnoreSetting_keys (x k v : String) (s : SchemaState) :
    x ∈ (insertOrIgnoreSetting k v s).settings.map Prod.fst ↔
      x = k ∨ x ∈ s.settings.map Prod.fst := by
  unfold insertOrIgnoreSetting
  split
  · rename_i hk
    constructor
    · exact Or.inr
    · rintro (rfl | hx)
      · exact hk
      · exact hx
  · simp [or_comm]

theorem insertOrIgnoreSetting_nodup (k v : String) (s : SchemaState)
    (h : (s.settings.map Prod.fst).Nodup) :
    ((insertOrIgnoreSetting k v s).settings.map Prod.fst).Nodup := by
  unfold insertOrIgnoreSetting
  split
  · exact h
  · rename_i hk
    simp only [List.map_append, List.map_cons, List.map_nil]
    rw [List.nodup_append]
    exact ⟨h, List.nodup_singleton _, by simpa using hk⟩

theorem createTableIfNotExists_of_mem (n : String) (s : SchemaState)
    (h : n ∈ s.tables) : createTableIfNotExists n s = s :=
  if_pos h

theorem createIndexIfNotExists_of_mem (n : String) (s : SchemaState)
    (h : n ∈ s.indexes) : createIndexIfNotExists n s = s :=
  if_pos h

theorem createTriggerIfNotExists_of_mem (n : String) (s : SchemaState)
    (h : n ∈ s.triggers) : createTriggerIfNotExists n s = s :=
  if_pos h

theorem insertOrIgnoreSetting_of_mem (k v : String) (s : SchemaState)
    (h : k ∈ s.settings.map Prod.fst) : insertOrIgnoreSetting k v s = s :=
  if_pos h

/-- The post-state of migration version 1: every object of the script
exists and every seeded settings key is present. -/
def migratedV1 (s : SchemaState) : Prop :=
  "users" ∈ s.tables ∧ "projects" ∈ s.tables ∧ "conversations" ∈ s.tables ∧
  "messages" ∈ s.tables ∧ "project_files" ∈ s.tables ∧ "settings" ∈ s.tables ∧
  "idx_messages_conversation" ∈ s.indexes ∧
  "idx_messages_created" ∈ s.indexes ∧
  "idx_conversations_project" ∈ s.indexes ∧
  "idx_conversations_updated" ∈ s.indexes ∧
  "idx_project_files_project" ∈ s.indexes ∧
  "users_updated_at" ∈ s.triggers ∧ "projects_updated_at" ∈ s.triggers ∧
  "conversations_updated_at" ∈ s.triggers ∧ "messages_updated_at" ∈ s.triggers ∧
  "project_files_updated_at" ∈ s.triggers ∧ "settings_updated_at" ∈ s.triggers ∧
  "messages_insert_update_conversation" ∈ s.triggers ∧
  "theme" ∈ s.settings.map Prod.fst ∧ "fontSize" ∈ s.settings.map Prod.fst ∧
  "keyboardShortcutsEnabled" ∈ s.settings.map Prod.fst ∧
  "apiEndpoint" ∈ s.settings.map Prod.fst

theorem applyMigrationV1_tables (s : SchemaState) :
    (applyMigrationV1 s).tables =
      insert "settings" (insert "project_files" (insert "messages"
        (insert "conversations" (insert "projects"
          (insert "users" s.tables))))) := by
  unfold applyMigrationV1 applyMigrationV1_ddl
  simp

theorem applyMigrationV1_indexes (s : SchemaState) :
    (applyMigrationV1 s).indexes =
      insert "idx_project_files_project" (insert "idx_conversations_updated"
        (insert "idx_conversations_project" (insert "idx_messages_created"
          (insert "idx_messages_conversation" s.indexes)))) := by
  unfold applyMigrationV1 applyMigrationV1_ddl
  simp

theorem applyMigrationV1_triggers (s : SchemaState) :
    (applyMigrationV1 s).triggers =
      insert "messages_insert_update_conversation" (insert "settings_updated_at"
        (insert "project_files_updated_at" (insert "messages_updated_at"
          (insert "conversations_updated_at" (insert "projects_updated_at"
            (insert "users_updated_at" s.triggers)))))) := by
  unfold applyMigrationV1 applyMigrationV1_ddl
  simp

theorem applyMigrationV1_keys (x : String) (s : SchemaState) :
    x ∈ (applyMigrationV1 s).settings.map Prod.fst ↔
      x = "apiEndpoint" ∨ x = "keyboardShortcutsEnabled" ∨ x = "fontSize" ∨
      x = "theme" ∨ x ∈ s.settings.map Prod.fst := by
  have hd : (applyMigrationV1_ddl s).settings = s.settings := by
    unfold applyMigrationV1_ddl
    simp
  unfold applyMigrationV1
  simp only [insertOrIgnoreSetting_keys, hd]

theorem migratedV1_applyMigrationV1 (s : SchemaState) :
    migratedV1 (applyMigrationV1 s) := by
  unfold migratedV1
  simp only [applyMigrationV1_tables, applyMigrationV1_indexes,
    applyMigrationV1_triggers, applyMigrationV1_keys]
  simp

theorem applyMigrationV1_of_migrated (s : SchemaState) (h : migratedV1 s) :
    applyMigrationV1 s = s := by
  obtain ⟨h1, h2, h3, h4, h5, h6, h7, h8, h9, h10, h11, h12, h13, h14, h15,
    h16, h17, h18, h19, h20, h21, h22⟩ := h
  unfold applyMigrationV1 applyMigrationV1_ddl
  rw [createTableIfNotExists_of_mem _ _ h1, createTableIfNotExists_of_mem _ _ h2,
    createTableIfNotExists_of_mem _ _ h3, createTableIfNotExists_of_mem _ _ h4,
    createTableIfNotExists_of_mem _ _ h5, createTableIfNotExists_of_mem _ _ h6,
    createIndexIfNotExists_of_mem _ _ h7, createIndexIfNotExists_of_mem _ _ h8,
    createIndexIfNotExists_of_mem _ _ h9, createIndexIfNotExists_of_mem _ _ h10,
    createIndexIfNotExists_of_mem _ _ h11,
    createTriggerIfNotExists_of_mem _ _ h12,
    createTriggerIfNotExists_of_mem _ _ h13,
    createTriggerIfNotExists_of_mem _ _ h14,
    createTriggerIfNotExists_of_mem _ _ h15,
    createTriggerIfNotExists_of_mem _ _ h16,
    createTriggerIfNotExists_of_mem _ _ h17,
    createTriggerIfNotExists_of_mem _ _ h18,
    insertOrIgnoreSetting_of_mem _ _ _ h19,
    insertOrIgnoreSetting_of_mem _ _ _ h20,
    insertOrIgnoreSetting_of_mem _ _ _ h21,
    insertOrIgnoreSetting_of_mem _ _ _ h22]

/-- C8: re-running the migration is a safe no-op: the migration body is
idempotent (guarded `IF NOT EXISTS` / `OR IGNORE` statements), the
version-marker-guarded runner is idempotent, and re-seeding introduces
no duplicate rows into `settings` (primary-key distinctness of the
settings keys is preserved). -/
theorem migration_rerun_is_noop (s : SchemaState) :
    applyMigrationV1 (applyMigrationV1 s) = applyMigrationV1 s ∧
    runMigrations (runMigrations s) = runMigrations s ∧
    ((s.settings.map Prod.fst).Nodup →
      ((applyMigrationV1 s).settings.map Prod.fst).Nodup) := by
  refine ⟨applyMigrationV1_of_migrated _ (migratedV1_applyMigrationV1 s), ?_, ?_⟩
  · unfold runMigrations
    by_cases h : 1 ≤ s.version
    · simp [h]
    · simp [h]
  · intro h
    have hd : (applyMigrationV1_ddl s).settings = s.settings := by
      unfold applyMigrationV1_ddl; simp
    unfold applyMigrationV1
    apply insertOrIgnoreSetting_nodup
    apply insertOrIgnoreSetting_nodup
    apply insertOrIgnoreSetting_nodup
    apply insertOrIgnoreSetting_nodup
    rw [hd]
    exact h

/-- The empty catalog: a fresh database file before any migration. -/
def emptySchema : SchemaState := ⟨∅, ∅, ∅, [], 0⟩

theorem migration_rerun_is_noop_witness :
    applyMigrationV1 (applyMigrationV1 emptySchema) = applyMigrationV1 emptySchema ∧
    ((applyMigrationV1 emptySchema).settings.map Prod.fst).Nodup := by
  have h := migration_rerun_is_noop emptySchema
  exact ⟨h.1, h.2.2 (by decide)⟩

end Empire
